import Mathlib

/-!
# KitchenTimerClock — verification of the controller state machine

Shallow embedding of the control logic in
`src/KitchenTimerClock/KitchenTimerClock.ino` (the single Arduino sketch).
The sketch is one cooperative polling `loop()`; we model each block of the
loop as a pure step function on an explicit state record:

* the per-second block (lines 131–148): countdown decrement / ALARM entry;
* the minute-rollover block (lines 118–128): wall-clock advance;
* the encoder block (lines 154–212): clock editing and timer adjustment
  with the adaptive step table;
* the button blocks (lines 214–277): long-press and release transitions;
* the SET_TIMER display-timeout block (lines 279–290);
* the display-refresh brightness logic (lines 306–331).

Machine-integer behaviour is modelled explicitly: on the AVR target
`unsigned`/`int` are 16 bits, so `timerSeconds + dir` wraps modulo 2^16, and
`millis()` differences are modulo 2^32 (`unsigned long`).  Display/buzzer
output, the blink flag and the millisecond bookkeeping timestamps are not
modelled where no claim depends on them (the blink flag is, per the design,
display-only).
-/

/-- The `enum` of controller modes (source lines 65–72). -/
inductive Mode
  | CLOCK
  | SET_HOUR
  | SET_MINUTE
  | SET_TIMER
  | COUNTDOWN
  | ALARM
deriving DecidableEq, Repr

/-- The controller state: the globals `clockHour`, `clockMinute`,
`timerSeconds` and the `loop()` statics `state`, `timerStartSeconds`,
`displayTimeoutMillis`.  `timerSeconds`/`timerStartSeconds` are C
`unsigned` (16-bit), `clockHour`/`clockMinute` are `byte`,
`displayTimeoutMillis` is `unsigned long` (32-bit); all are modelled as
`Nat`, with wraparound made explicit at the operations that can wrap. -/
structure St where
  state : Mode
  clockHour : Nat
  clockMinute : Nat
  timerSeconds : Nat
  timerStartSeconds : Nat
  displayTimeoutMillis : Nat
deriving DecidableEq, Repr

/-- The 16-bit unsigned value of `ts + dir` where `ts : unsigned` and
`dir : int` (C usual arithmetic conversions on AVR: both 16 bits, the
`int` is converted to `unsigned`, addition wraps modulo 2^16).  Used by
the comparisons `timerSeconds + dir > …` in lines 176–180. -/
def uadd16 (ts : Nat) (dir : Int) : Nat :=
  (((ts : Int) + dir).emod 65536).toNat

/-- The adaptive step table, lines 176–186: the three upper thresholds
compare the 16-bit value of `timerSeconds + dir`; the zero case tests
`timerSeconds` itself. -/
def stepTable (v ts : Nat) : Nat :=
  if v > 6 * 60 then 60
  else if v > 3 * 60 then 30
  else if v > 60 then 15
  else if ts = 0 then 10
  else 5

/-- Step magnitude chosen by the encoder block for current value `ts` and
raw encoder count `dir` (lines 175–186). -/
def encStep (ts : Nat) (dir : Int) : Nat :=
  stepTable (uadd16 ts dir) ts

/-- Effective increment after the snap-to-grid reduction of line 189:
outside COUNTDOWN the step becomes `step - ts % step`, in COUNTDOWN the
full step is used. -/
def upStep (mode : Mode) (ts : Nat) (dir : Int) : Nat :=
  if mode ≠ Mode.COUNTDOWN then encStep ts dir - ts % encStep ts dir
  else encStep ts dir

/-- Effective decrement after the snap-down of lines 197–200: outside
COUNTDOWN, when `ts` is not on the grid the step becomes `ts % step`. -/
def downStep (mode : Mode) (ts : Nat) (dir : Int) : Nat :=
  if mode ≠ Mode.COUNTDOWN then
    if ts % encStep ts dir ≠ 0 then ts % encStep ts dir else encStep ts dir
  else encStep ts dir

/-- The timer-adjustment body of the encoder block, lines 174–206: the
timeout reference is cleared, then an increment is applied only when the
16-bit sum stays below 6000 (line 191) and a decrement only when
`timerSeconds >= step` (line 202). -/
def encApply (s : St) (dir : Int) : St :=
  if dir > 0 then
    if (s.timerSeconds + upStep s.state s.timerSeconds dir) % 65536 < 6000 then
      { s with timerSeconds := (s.timerSeconds + upStep s.state s.timerSeconds dir) % 65536,
               displayTimeoutMillis := 0 }
    else { s with displayTimeoutMillis := 0 }
  else
    if downStep s.state s.timerSeconds dir ≤ s.timerSeconds then
      { s with timerSeconds := s.timerSeconds - downStep s.state s.timerSeconds dir,
               displayTimeoutMillis := 0 }
    else { s with displayTimeoutMillis := 0 }

/-- Lines 207–209: a positive rotation outside COUNTDOWN switches the
mode to SET_TIMER (the mode was not changed by `encApply`, as in the
source, where line 207 re-reads `state`). -/
def encFinish (s : St) (dir : Int) : St :=
  if s.state ≠ Mode.COUNTDOWN ∧ dir > 0 then { s with state := Mode.SET_TIMER }
  else s

/-- The encoder block, lines 154–212.  `dir` is the raw pulse count from
`encoder.read()`; nothing happens below `ENCODER_PULSES_PER_STEP = 4`
pulses.  In SET_HOUR/SET_MINUTE the clock digits wrap; in every other
mode the timer branch runs. -/
def handleEncoder (s : St) (dir : Int) : St :=
  if dir.natAbs ≥ 4 then
    match s.state with
    | Mode.SET_HOUR =>
        if dir > 0 then
          { s with clockHour := if s.clockHour < 23 then s.clockHour + 1 else 0 }
        else
          { s with clockHour := if s.clockHour > 0 then s.clockHour - 1 else 23 }
    | Mode.SET_MINUTE =>
        if dir > 0 then
          { s with clockMinute := if s.clockMinute < 59 then s.clockMinute + 1 else 0 }
        else
          { s with clockMinute := if s.clockMinute > 0 then s.clockMinute - 1 else 59 }
    | _ => encFinish (encApply s dir) dir
  else s

/-- The per-second block, lines 131–148, restricted to its effect on the
modelled state: in COUNTDOWN a positive `timerSeconds` is decremented and
reaching 0 enters ALARM in the same iteration; in CLOCK only the display
blink toggles (not modelled). -/
def handleTick (s : St) : St :=
  match s.state with
  | Mode.COUNTDOWN =>
      if s.timerSeconds > 0 then
        if s.timerSeconds - 1 = 0 then
          { s with timerSeconds := s.timerSeconds - 1, state := Mode.ALARM }
        else { s with timerSeconds := s.timerSeconds - 1 }
      else s
  | _ => s

/-- The minute-rollover block, lines 118–128 (its clock effect).  In the
source it sits in the `else` of the SET_HOUR/SET_MINUTE test, so it does
not run while the clock is being set. -/
def minuteStep (s : St) : St :=
  if s.state = Mode.SET_HOUR ∨ s.state = Mode.SET_MINUTE then s
  else if s.clockMinute < 59 then { s with clockMinute := s.clockMinute + 1 }
  else
    { s with clockMinute := 0,
             clockHour := if s.clockHour < 23 then s.clockHour + 1 else 0 }

/-- The long-press branch, lines 223–236: in SET_TIMER it zeroes both
timer values, in CLOCK it enters SET_HOUR; `displayTimeoutMillis` is
reset in every mode. -/
def handleLongPress (s : St) : St :=
  match s.state with
  | Mode.SET_TIMER =>
      { s with displayTimeoutMillis := 0, timerSeconds := 0, timerStartSeconds := 0 }
  | Mode.CLOCK => { s with displayTimeoutMillis := 0, state := Mode.SET_HOUR }
  | _ => { s with displayTimeoutMillis := 0 }

/-- The button-release branch, lines 237–277.  The external side effects
(`saveTimeToRTC`, `minuteMillis`/`previousMillis` resynchronisation,
display refresh) are not part of the modelled state. -/
def handleRelease (s : St) : St :=
  match s.state with
  | Mode.SET_HOUR => { s with displayTimeoutMillis := 0, state := Mode.SET_MINUTE }
  | Mode.SET_MINUTE => { s with displayTimeoutMillis := 0, state := Mode.CLOCK }
  | Mode.CLOCK => { s with displayTimeoutMillis := 0, state := Mode.SET_TIMER }
  | Mode.COUNTDOWN => { s with displayTimeoutMillis := 0, state := Mode.SET_TIMER }
  | Mode.ALARM =>
      { s with displayTimeoutMillis := 0, state := Mode.SET_TIMER,
               timerSeconds := s.timerStartSeconds }
  | Mode.SET_TIMER =>
      if s.timerSeconds > 0 then
        { s with displayTimeoutMillis := 0, state := Mode.COUNTDOWN,
                 timerStartSeconds :=
                   if s.timerStartSeconds < s.timerSeconds then s.timerSeconds
                   else s.timerStartSeconds }
      else { s with displayTimeoutMillis := 0, state := Mode.CLOCK,
                    timerStartSeconds := 0 }

/-- The 32-bit wrapping difference of two `unsigned long` millisecond
counters, as computed by `currentMillis - displayTimeoutMillis`. -/
def sub32 (a b : Nat) : Nat :=
  (((a : Int) - b).emod (2 ^ 32)).toNat

/-- The reference timestamp used by the SET_TIMER display-timeout block,
lines 281–283: a zero `displayTimeoutMillis` is seeded with the current
`millis()` value (an `unsigned long`, hence modulo 2^32).  Once more than
`TIMER_DISPLAY_TIMEOUT = 60000` ms have elapsed since this reference, the
mode reverts to CLOCK and both timer values are cleared (lines 284–289). -/
def timeoutRef (s : St) (now : Nat) : Nat :=
  if s.displayTimeoutMillis = 0 then now % 2 ^ 32 else s.displayTimeoutMillis

/-- The transition of the display-timeout block at loop time `now`,
using the (possibly freshly seeded) reference `timeoutRef`. -/
def timeoutStep (s : St) (now : Nat) : St :=
  if s.state = Mode.SET_TIMER then
    if sub32 (now % 2 ^ 32) (timeoutRef s now) > 60000 then
      { s with displayTimeoutMillis := 0, state := Mode.CLOCK,
               timerSeconds := 0, timerStartSeconds := 0 }
    else { s with displayTimeoutMillis := timeoutRef s now }
  else s

/-- The clock effect of `loadRTCTime` (lines 335–376): when the RTC
reading is valid, `clockHour`/`clockMinute` are set from it (the reading
itself comes from the external RTClib `DateTime`; an invalid reading only
clears `rtcPresent`, which is not modelled).  Validity bounds of the
external reading appear as hypotheses in the theorems. -/
def loadStep (s : St) (h m : Nat) (valid : Bool) : St :=
  if valid then { s with clockHour := h, clockMinute := m } else s

/-- The events of one loop iteration that mutate the modelled state. -/
inductive Ev
  | enc (dir : Int)
  | tick
  | minute
  | longPress
  | release
  | timeout (now : Nat)
  | load (h m : Nat) (valid : Bool)

/-- The transition function over all modelled events. -/
def evStep (s : St) : Ev → St
  | Ev.enc dir => handleEncoder s dir
  | Ev.tick => handleTick s
  | Ev.minute => minuteStep s
  | Ev.longPress => handleLongPress s
  | Ev.release => handleRelease s
  | Ev.timeout now => timeoutStep s now
  | Ev.load h m valid => loadStep s h m valid

/-- The timer-affecting events named by claim C1: encoder rotations and
per-second countdown ticks. -/
inductive TEv
  | enc (dir : Int)
  | tick

/-- The transition function restricted to encoder and tick events. -/
def tStep (s : St) : TEv → St
  | TEv.enc dir => handleEncoder s dir
  | TEv.tick => handleTick s

/-- The display-refresh state of lines 306–331: the `static int
lastLDRReading` (initialised out of range at 1300) and the brightness
level last passed to `display.setBrightness`. -/
structure Disp where
  lastLDRReading : Int
  brightness : Nat
deriving DecidableEq, Repr

/-- The value of `abs(a - lastLDRReading)` at line 319.  In a sketch,
`abs` is the Arduino macro `((x)>0?(x):-(x))`; `a : unsigned` minus
`lastLDRReading : int` is computed in 16-bit unsigned arithmetic, so the
macro receives an unsigned value: the comparison with 0 and the negation
are unsigned as well, and the macro returns the wrapped difference itself
(the negation branch fires only at 0).  A decreased reading therefore
yields a large wrapped value, not a small absolute difference. -/
def absDiffC (a : Nat) (last : Int) : Nat :=
  if (((a : Int) - last).emod 65536).toNat > 0 then
    (((a : Int) - last).emod 65536).toNat
  else ((-(((a : Int) - last).emod 65536)).emod 65536).toNat

/-- The Arduino `map` function (integer linear interpolation).  At line
325 it is called as `map(a, 0, 500, 1, 1)`, which is constantly 1. -/
def arduinoMap (x inMin inMax outMin outMax : Int) : Int :=
  (x - inMin) * (outMax - outMin) / (inMax - inMin) + outMin

/-- The brightness part of the display-refresh block, lines 309–329:
during ALARM the brightness is forced to 7 and `lastLDRReading` is
parked out of range; otherwise a new LDR reading `a` is applied only
when it differs from the last applied reading by more than 10, mapping
readings above `LDR_MAX_LIGHT = 500` to brightness 7 and the rest
through `map(a, 0, 500, 1, 1)`. -/
def displayRefresh (d : Disp) (alarm : Bool) (a : Nat) : Disp :=
  if alarm then { lastLDRReading := 1300, brightness := 7 }
  else if absDiffC a d.lastLDRReading > 10 then
    { lastLDRReading := (a : Int),
      brightness := if a > 500 then 7 else (arduinoMap (a : Int) 0 500 1 1).toNat }
  else d

/-- The step table as claim C4 words it: determined from the current
`timerSeconds` alone.  Compare with `stepTable`, whose three upper
thresholds test the 16-bit sum `timerSeconds + dir` instead. -/
def claimedStep (ts : Nat) : Nat :=
  if ts > 360 then 60
  else if ts > 180 then 30
  else if ts > 60 then 15
  else if ts = 0 then 10
  else 5

/-! ## Helper lemmas -/

lemma stepTable_pos (v ts : Nat) : 0 < stepTable v ts := by
  unfold stepTable
  repeat' split
  all_goals omega

lemma stepTable_le (v ts : Nat) : stepTable v ts ≤ 60 := by
  unfold stepTable
  repeat' split
  all_goals omega

lemma encStep_pos (ts : Nat) (dir : Int) : 0 < encStep ts dir :=
  stepTable_pos _ _

lemma encStep_le (ts : Nat) (dir : Int) : encStep ts dir ≤ 60 :=
  stepTable_le _ _

lemma upStep_pos (mode : Mode) (ts : Nat) (dir : Int) : 0 < upStep mode ts dir := by
  unfold upStep
  have h1 := encStep_pos ts dir
  have h2 := Nat.mod_lt ts h1
  split <;> omega

lemma upStep_le (mode : Mode) (ts : Nat) (dir : Int) : upStep mode ts dir ≤ 60 := by
  unfold upStep
  have h1 := encStep_le ts dir
  have h2 : ts % encStep ts dir ≤ encStep ts dir := Nat.le_of_lt (Nat.mod_lt ts (encStep_pos ts dir))
  split <;> omega

lemma downStep_pos (mode : Mode) (ts : Nat) (dir : Int) : 0 < downStep mode ts dir := by
  unfold downStep
  have h1 := encStep_pos ts dir
  split
  · split <;> omega
  · omega

lemma encApply_state (s : St) (dir : Int) : (encApply s dir).state = s.state := by
  unfold encApply; split_ifs <;> rfl

lemma encApply_clockHour (s : St) (dir : Int) :
    (encApply s dir).clockHour = s.clockHour := by
  unfold encApply; split_ifs <;> rfl

lemma encApply_clockMinute (s : St) (dir : Int) :
    (encApply s dir).clockMinute = s.clockMinute := by
  unfold encApply; split_ifs <;> rfl

lemma encApply_timerStartSeconds (s : St) (dir : Int) :
    (encApply s dir).timerStartSeconds = s.timerStartSeconds := by
  unfold encApply; split_ifs <;> rfl

lemma encApply_timerSeconds (s : St) (dir : Int) :
    (encApply s dir).timerSeconds =
      if dir > 0 then
        if (s.timerSeconds + upStep s.state s.timerSeconds dir) % 65536 < 6000 then
          (s.timerSeconds + upStep s.state s.timerSeconds dir) % 65536
        else s.timerSeconds
      else
        if downStep s.state s.timerSeconds dir ≤ s.timerSeconds then
          s.timerSeconds - downStep s.state s.timerSeconds dir
        else s.timerSeconds := by
  unfold encApply; split_ifs <;> rfl

lemma encFinish_timerSeconds (s : St) (dir : Int) :
    (encFinish s dir).timerSeconds = s.timerSeconds := by
  unfold encFinish; split <;> rfl

lemma encFinish_clockHour (s : St) (dir : Int) :
    (encFinish s dir).clockHour = s.clockHour := by
  unfold encFinish; split <;> rfl

lemma encFinish_clockMinute (s : St) (dir : Int) :
    (encFinish s dir).clockMinute = s.clockMinute := by
  unfold encFinish; split <;> rfl

lemma encFinish_timerStartSeconds (s : St) (dir : Int) :
    (encFinish s dir).timerStartSeconds = s.timerStartSeconds := by
  unfold encFinish; split <;> rfl

lemma encFinish_state (s : St) (dir : Int) :
    (encFinish s dir).state =
      if s.state ≠ Mode.COUNTDOWN ∧ dir > 0 then Mode.SET_TIMER else s.state := by
  unfold encFinish; split <;> rfl

/-- The `match` in `handleEncoder` rewritten as decidable mode tests. -/
lemma handleEncoder_split (s : St) (dir : Int) :
    handleEncoder s dir =
      if dir.natAbs ≥ 4 then
        if s.state = Mode.SET_HOUR then
          if dir > 0 then
            { s with clockHour := if s.clockHour < 23 then s.clockHour + 1 else 0 }
          else
            { s with clockHour := if s.clockHour > 0 then s.clockHour - 1 else 23 }
        else if s.state = Mode.SET_MINUTE then
          if dir > 0 then
            { s with clockMinute := if s.clockMinute < 59 then s.clockMinute + 1 else 0 }
          else
            { s with clockMinute := if s.clockMinute > 0 then s.clockMinute - 1 else 59 }
        else encFinish (encApply s dir) dir
      else s := by
  rcases s with ⟨st, ch, cm, ts, tss, dtm⟩
  cases st <;> simp [handleEncoder]

/-- The `match` in `handleTick`, at the level of each field. -/
lemma handleTick_timerSeconds (s : St) :
    (handleTick s).timerSeconds =
      if s.state = Mode.COUNTDOWN ∧ 0 < s.timerSeconds then s.timerSeconds - 1
      else s.timerSeconds := by
  rcases s with ⟨st, ch, cm, ts, tss, dtm⟩
  cases st
  all_goals try simp [handleTick]
  all_goals try split_ifs
  all_goals try simp_all
  all_goals try omega

lemma handleTick_state (s : St) :
    (handleTick s).state =
      if s.state = Mode.COUNTDOWN ∧ s.timerSeconds = 1 then Mode.ALARM
      else s.state := by
  rcases s with ⟨st, ch, cm, ts, tss, dtm⟩
  cases st
  all_goals try simp [handleTick]
  all_goals try split_ifs
  all_goals try simp_all
  all_goals try omega

lemma handleTick_clockHour (s : St) : (handleTick s).clockHour = s.clockHour := by
  rcases s with ⟨st, ch, cm, ts, tss, dtm⟩
  cases st
  all_goals try simp [handleTick]
  all_goals try split_ifs
  all_goals try rfl

lemma handleTick_clockMinute (s : St) : (handleTick s).clockMinute = s.clockMinute := by
  rcases s with ⟨st, ch, cm, ts, tss, dtm⟩
  cases st
  all_goals try simp [handleTick]
  all_goals try split_ifs
  all_goals try rfl

/-- One encoder event keeps the timer below the cap. -/
lemma handleEncoder_timer_le (s : St) (dir : Int) (h : s.timerSeconds ≤ 5999) :
    (handleEncoder s dir).timerSeconds ≤ 5999 := by
  rw [handleEncoder_split]
  have h2 := encFinish_timerSeconds (encApply s dir) dir
  have h3 := encApply_timerSeconds s dir
  split_ifs at * <;> simp_all <;> omega

/-- One tick keeps the timer below the cap. -/
lemma handleTick_timer_le (s : St) (h : s.timerSeconds ≤ 5999) :
    (handleTick s).timerSeconds ≤ 5999 := by
  rw [handleTick_timerSeconds]
  split_ifs <;> omega

lemma tStep_timer_le (s : St) (e : TEv) (h : s.timerSeconds ≤ 5999) :
    (tStep s e).timerSeconds ≤ 5999 := by
  cases e with
  | enc dir => exact handleEncoder_timer_le s dir h
  | tick => exact handleTick_timer_le s h

lemma foldl_tStep_timer_le (evs : List TEv) (s : St) (h : s.timerSeconds ≤ 5999) :
    (evs.foldl tStep s).timerSeconds ≤ 5999 := by
  induction evs generalizing s with
  | nil => exact h
  | cons e evs ih => exact ih _ (tStep_timer_le s e h)

/-! ## C1 -/

/-- C1.  Along any sequence of encoder and countdown-tick events the
timer stays in [0, 5999] (it is a `Nat`, hence never negative); an
encoder decrement at `timerSeconds = 0` leaves it 0; and an encoder
increment whose snapped result would pass the cap leaves `timerSeconds`
unchanged. -/
theorem timer_range_invariant (s : St) (evs : List TEv)
    (h : s.timerSeconds ≤ 5999) :
    (evs.foldl tStep s).timerSeconds ≤ 5999
    ∧ (∀ dir : Int, dir < 0 → s.timerSeconds = 0 →
        (handleEncoder s dir).timerSeconds = 0)
    ∧ (∀ dir : Int, 0 < dir →
        5999 < s.timerSeconds + upStep s.state s.timerSeconds dir →
        (handleEncoder s dir).timerSeconds = s.timerSeconds) := by
  refine ⟨foldl_tStep_timer_le evs s h, ?_, ?_⟩
  · intro dir hdir hts
    rw [handleEncoder_split]
    have h2 := encFinish_timerSeconds (encApply s dir) dir
    have h3 := encApply_timerSeconds s dir
    have h4 := downStep_pos s.state s.timerSeconds dir
    have hd : ¬ dir > 0 := by omega
    split_ifs at * <;> simp_all <;> omega
  · intro dir hdir hcap
    rw [handleEncoder_split]
    have h2 := encFinish_timerSeconds (encApply s dir) dir
    have h3 := encApply_timerSeconds s dir
    have hup : upStep s.state s.timerSeconds dir ≤ 60 := upStep_le s.state s.timerSeconds dir
    split_ifs at * <;> simp_all <;> omega

/-- Witness for C1 at concrete inputs. -/
theorem timer_range_invariant_witness :
    ([TEv.enc 4, TEv.tick].foldl tStep
        ⟨Mode.SET_TIMER, 0, 0, 5995, 0, 0⟩).timerSeconds ≤ 5999
    ∧ (handleEncoder ⟨Mode.SET_TIMER, 0, 0, 0, 0, 0⟩ (-4)).timerSeconds = 0
    ∧ (handleEncoder ⟨Mode.SET_TIMER, 0, 0, 5995, 0, 0⟩ 4).timerSeconds = 5995 :=
  ⟨(timer_range_invariant ⟨Mode.SET_TIMER, 0, 0, 5995, 0, 0⟩
      [TEv.enc 4, TEv.tick] (by decide)).1,
   (timer_range_invariant ⟨Mode.SET_TIMER, 0, 0, 0, 0, 0⟩ [] (by decide)).2.1
      (-4) (by decide) rfl,
   (timer_range_invariant ⟨Mode.SET_TIMER, 0, 0, 5995, 0, 0⟩ [] (by decide)).2.2
      4 (by decide) (by decide)⟩

/-! ## C2 -/

/-- C2.  In COUNTDOWN, a tick with a positive timer decrements it by one,
and the same iteration moves the mode to ALARM exactly when that
decrement lands on 0 (that is, when the timer was 1); the state after a
decrement is COUNTDOWN only when the new value is positive. -/
theorem countdown_alarm_same_tick (s : St)
    (h1 : s.state = Mode.COUNTDOWN) (h2 : 0 < s.timerSeconds) :
    (handleTick s).timerSeconds = s.timerSeconds - 1
    ∧ ((handleTick s).state = Mode.ALARM ↔ s.timerSeconds = 1)
    ∧ ((handleTick s).state = Mode.COUNTDOWN → 0 < (handleTick s).timerSeconds) := by
  rcases s with ⟨st, ch, cm, ts, tss, dtm⟩
  simp only at h1 h2
  subst h1
  simp only [handleTick]
  split_ifs <;> simp_all <;> omega

/-- Witness for C2: a countdown tick at 1 second remaining. -/
theorem countdown_alarm_same_tick_witness :
    (handleTick ⟨Mode.COUNTDOWN, 0, 0, 1, 9, 0⟩).timerSeconds = 1 - 1
    ∧ ((handleTick ⟨Mode.COUNTDOWN, 0, 0, 1, 9, 0⟩).state = Mode.ALARM ↔ (1 : Nat) = 1)
    ∧ ((handleTick ⟨Mode.COUNTDOWN, 0, 0, 1, 9, 0⟩).state = Mode.COUNTDOWN →
        0 < (handleTick ⟨Mode.COUNTDOWN, 0, 0, 1, 9, 0⟩).timerSeconds) :=
  countdown_alarm_same_tick ⟨Mode.COUNTDOWN, 0, 0, 1, 9, 0⟩ rfl (by decide)

/-! ## Characterizations of the remaining blocks -/

lemma handleEncoder_state (s : St) (dir : Int) :
    (handleEncoder s dir).state =
      if dir.natAbs ≥ 4 ∧ s.state ≠ Mode.SET_HOUR ∧ s.state ≠ Mode.SET_MINUTE
          ∧ s.state ≠ Mode.COUNTDOWN ∧ dir > 0 then Mode.SET_TIMER
      else s.state := by
  rw [handleEncoder_split]
  have h1 := encFinish_state (encApply s dir) dir
  have h2 := encApply_state s dir
  split_ifs at * <;> simp_all

lemma handleEncoder_clockHour_frame (s : St) (dir : Int)
    (h : s.state ≠ Mode.SET_HOUR) :
    (handleEncoder s dir).clockHour = s.clockHour := by
  rw [handleEncoder_split]
  have h1 := encFinish_clockHour (encApply s dir) dir
  have h2 := encApply_clockHour s dir
  split_ifs <;> simp_all

lemma handleEncoder_clockMinute_frame (s : St) (dir : Int)
    (h : s.state ≠ Mode.SET_MINUTE) :
    (handleEncoder s dir).clockMinute = s.clockMinute := by
  rw [handleEncoder_split]
  have h1 := encFinish_clockMinute (encApply s dir) dir
  have h2 := encApply_clockMinute s dir
  split_ifs <;> simp_all

lemma handleRelease_split (s : St) :
    handleRelease s =
      if s.state = Mode.SET_HOUR then
        { s with displayTimeoutMillis := 0, state := Mode.SET_MINUTE }
      else if s.state = Mode.SET_MINUTE then
        { s with displayTimeoutMillis := 0, state := Mode.CLOCK }
      else if s.state = Mode.CLOCK then
        { s with displayTimeoutMillis := 0, state := Mode.SET_TIMER }
      else if s.state = Mode.COUNTDOWN then
        { s with displayTimeoutMillis := 0, state := Mode.SET_TIMER }
      else if s.state = Mode.ALARM then
        { s with displayTimeoutMillis := 0, state := Mode.SET_TIMER,
                 timerSeconds := s.timerStartSeconds }
      else if s.timerSeconds > 0 then
        { s with displayTimeoutMillis := 0, state := Mode.COUNTDOWN,
                 timerStartSeconds :=
                   if s.timerStartSeconds < s.timerSeconds then s.timerSeconds
                   else s.timerStartSeconds }
      else { s with displayTimeoutMillis := 0, state := Mode.CLOCK,
                    timerStartSeconds := 0 } := by
  rcases s with ⟨st, ch, cm, ts, tss, dtm⟩
  cases st <;> simp [handleRelease]

lemma minuteStep_state (s : St) : (minuteStep s).state = s.state := by
  unfold minuteStep; split_ifs <;> rfl

lemma minuteStep_timerSeconds (s : St) :
    (minuteStep s).timerSeconds = s.timerSeconds := by
  unfold minuteStep; split_ifs <;> rfl

lemma handleLongPress_state (s : St) :
    (handleLongPress s).state =
      if s.state = Mode.CLOCK then Mode.SET_HOUR else s.state := by
  rcases s with ⟨st, ch, cm, ts, tss, dtm⟩
  cases st <;> simp [handleLongPress]

lemma handleLongPress_timerSeconds (s : St) :
    (handleLongPress s).timerSeconds =
      if s.state = Mode.SET_TIMER then 0 else s.timerSeconds := by
  rcases s with ⟨st, ch, cm, ts, tss, dtm⟩
  cases st <;> simp [handleLongPress]

lemma handleLongPress_timerStartSeconds (s : St) :
    (handleLongPress s).timerStartSeconds =
      if s.state = Mode.SET_TIMER then 0 else s.timerStartSeconds := by
  rcases s with ⟨st, ch, cm, ts, tss, dtm⟩
  cases st <;> simp [handleLongPress]

lemma timeoutStep_state (s : St) (now : Nat) :
    (timeoutStep s now).state =
      if s.state = Mode.SET_TIMER ∧ sub32 (now % 2 ^ 32) (timeoutRef s now) > 60000
      then Mode.CLOCK else s.state := by
  unfold timeoutStep
  split_ifs
  all_goals try rfl
  all_goals try simp_all
  all_goals try omega

lemma loadStep_state (s : St) (h m : Nat) (v : Bool) :
    (loadStep s h m v).state = s.state := by
  unfold loadStep; split <;> rfl

lemma loadStep_timerSeconds (s : St) (h m : Nat) (v : Bool) :
    (loadStep s h m v).timerSeconds = s.timerSeconds := by
  unfold loadStep; split <;> rfl

/-! ## C3 -/

/-- C3.  A short-press release in SET_TIMER enters COUNTDOWN exactly when
the timer is positive and falls back to CLOCK at 0; moreover no modelled
event moves a state that is not in COUNTDOWN into COUNTDOWN with a zero
timer. -/
theorem settimer_release_guard (s : St) :
    (s.state = Mode.SET_TIMER →
      (((handleRelease s).state = Mode.COUNTDOWN) ↔ 0 < s.timerSeconds)
      ∧ (s.timerSeconds = 0 → (handleRelease s).state = Mode.CLOCK))
    ∧ (∀ e : Ev, s.state ≠ Mode.COUNTDOWN → (evStep s e).state = Mode.COUNTDOWN →
        0 < (evStep s e).timerSeconds) := by
  constructor
  · intro hst
    rw [handleRelease_split]
    simp only [hst]
    constructor
    · split_ifs <;> simp_all
    · intro h0
      split_ifs <;> simp_all
  · intro e hne hcd
    cases e with
    | enc dir =>
        rw [evStep] at hcd ⊢
        rw [handleEncoder_state] at hcd
        split_ifs at hcd <;> simp_all
    | tick =>
        rw [evStep] at hcd ⊢
        rw [handleTick_state] at hcd
        split_ifs at hcd <;> simp_all
    | minute =>
        rw [evStep] at hcd ⊢
        rw [minuteStep_state] at hcd
        exact absurd hcd hne
    | longPress =>
        rw [evStep] at hcd ⊢
        rw [handleLongPress_state] at hcd
        split_ifs at hcd <;> simp_all
    | release =>
        rw [evStep] at hcd ⊢
        rw [handleRelease_split] at hcd ⊢
        split_ifs at hcd <;> simp_all
    | timeout now =>
        rw [evStep] at hcd ⊢
        rw [timeoutStep_state] at hcd
        split_ifs at hcd <;> simp_all
    | load h m v =>
        rw [evStep] at hcd ⊢
        rw [loadStep_state] at hcd
        exact absurd hcd hne

/-- Witness for C3: release at SET_TIMER with 5 seconds set. -/
theorem settimer_release_guard_witness :
    0 < (evStep ⟨Mode.SET_TIMER, 0, 0, 5, 0, 0⟩ Ev.release).timerSeconds :=
  (settimer_release_guard ⟨Mode.SET_TIMER, 0, 0, 5, 0, 0⟩).2 Ev.release
    (by decide) (by decide)

/-! ## C5 -/

/-- C5.  Releasing a short press in ALARM returns to SET_TIMER with the
timer restored from `timerStartSeconds`; and on entering COUNTDOWN from
SET_TIMER the start value is recorded whenever the armed timer is at
least the previous start value. -/
theorem alarm_dismiss_restores (s : St) :
    (s.state = Mode.ALARM →
      (handleRelease s).state = Mode.SET_TIMER
      ∧ (handleRelease s).timerSeconds = s.timerStartSeconds)
    ∧ (s.state = Mode.SET_TIMER → 0 < s.timerSeconds →
        s.timerStartSeconds ≤ s.timerSeconds →
      (handleRelease s).state = Mode.COUNTDOWN
      ∧ (handleRelease s).timerStartSeconds = s.timerSeconds) := by
  constructor
  · intro hst
    rw [handleRelease_split]
    simp only [hst]
    split_ifs <;> simp_all
  · intro hst hpos hle
    rw [handleRelease_split]
    simp only [hst]
    split_ifs <;> simp_all <;> omega

/-- Witness for C5: dismissing the alarm with a recorded start of 125,
and arming a 125-second countdown over a smaller previous start. -/
theorem alarm_dismiss_restores_witness :
    ((handleRelease ⟨Mode.ALARM, 0, 0, 0, 125, 0⟩).state = Mode.SET_TIMER
      ∧ (handleRelease ⟨Mode.ALARM, 0, 0, 0, 125, 0⟩).timerSeconds = 125)
    ∧ ((handleRelease ⟨Mode.SET_TIMER, 0, 0, 125, 60, 0⟩).state = Mode.COUNTDOWN
      ∧ (handleRelease ⟨Mode.SET_TIMER, 0, 0, 125, 60, 0⟩).timerStartSeconds = 125) :=
  ⟨(alarm_dismiss_restores ⟨Mode.ALARM, 0, 0, 0, 125, 0⟩).1 rfl,
   (alarm_dismiss_restores ⟨Mode.SET_TIMER, 0, 0, 125, 60, 0⟩).2 rfl
     (by decide) (by decide)⟩

/-! ## C6 -/

/-- C6.  Minute rollover, clock-editing encoder events and valid RTC
loads keep the clock a valid wall-clock value (`Nat` fields exclude
negatives), and a rollover from minute 59 zeroes the minute and advances
the hour, wrapping 23 to 0. -/
theorem clock_wallclock_invariant (s : St)
    (h1 : s.clockHour ≤ 23) (h2 : s.clockMinute ≤ 59) :
    ((minuteStep s).clockHour ≤ 23 ∧ (minuteStep s).clockMinute ≤ 59)
    ∧ (∀ dir : Int,
        (handleEncoder s dir).clockHour ≤ 23
        ∧ (handleEncoder s dir).clockMinute ≤ 59)
    ∧ (∀ hh mm : Nat, ∀ v : Bool, hh ≤ 23 → mm ≤ 59 →
        (loadStep s hh mm v).clockHour ≤ 23
        ∧ (loadStep s hh mm v).clockMinute ≤ 59)
    ∧ (s.state ≠ Mode.SET_HOUR → s.state ≠ Mode.SET_MINUTE →
        s.clockMinute = 59 →
        (minuteStep s).clockMinute = 0
        ∧ (minuteStep s).clockHour =
            (if s.clockHour < 23 then s.clockHour + 1 else 0)) := by
  refine ⟨?_, ?_, ?_, ?_⟩
  · unfold minuteStep
    split_ifs
    all_goals simp_all
    all_goals omega
  · intro dir
    rw [handleEncoder_split]
    have ha := encApply_clockHour s dir
    have hb := encApply_clockMinute s dir
    have hc := encFinish_clockHour (encApply s dir) dir
    have hd := encFinish_clockMinute (encApply s dir) dir
    split_ifs
    all_goals simp_all
    all_goals omega
  · intro hh mm v hhh hmm
    unfold loadStep
    split
    all_goals simp_all
  · intro hs1 hs2 hm
    unfold minuteStep
    split_ifs
    all_goals simp_all

/-- Witness for C6: rollover at 23:59 wraps to 00:00. -/
theorem clock_wallclock_invariant_witness :
    ((minuteStep ⟨Mode.CLOCK, 23, 59, 0, 0, 0⟩).clockHour ≤ 23
      ∧ (minuteStep ⟨Mode.CLOCK, 23, 59, 0, 0, 0⟩).clockMinute ≤ 59)
    ∧ ((minuteStep ⟨Mode.CLOCK, 23, 59, 0, 0, 0⟩).clockMinute = 0
      ∧ (minuteStep ⟨Mode.CLOCK, 23, 59, 0, 0, 0⟩).clockHour =
          (if (23 : Nat) < 23 then 23 + 1 else 0)) :=
  ⟨(clock_wallclock_invariant ⟨Mode.CLOCK, 23, 59, 0, 0, 0⟩
      (by decide) (by decide)).1,
   (clock_wallclock_invariant ⟨Mode.CLOCK, 23, 59, 0, 0, 0⟩
      (by decide) (by decide)).2.2.2 (by decide) (by decide) rfl⟩

/-! ## C7 -/

lemma sub32_self (a : Nat) : sub32 a a = 0 := by
  unfold sub32
  rw [sub_self]
  rfl

lemma timeoutStep_seed (s : St) (t0 : Nat)
    (h1 : s.state = Mode.SET_TIMER) (h2 : s.displayTimeoutMillis = 0) :
    timeoutStep s t0 = { s with displayTimeoutMillis := t0 % 2 ^ 32 } := by
  simp [timeoutStep, timeoutRef, h1, h2, sub32_self]

lemma timeoutStep_hold (s : St) (t : Nat)
    (h1 : s.state = Mode.SET_TIMER) (h2 : s.displayTimeoutMillis ≠ 0)
    (h3 : sub32 (t % 2 ^ 32) s.displayTimeoutMillis ≤ 60000) :
    timeoutStep s t = s := by
  unfold timeoutStep timeoutRef
  rw [if_pos h1, if_neg h2,
      if_neg (show ¬ sub32 (t % 2 ^ 32) s.displayTimeoutMillis > 60000 by omega)]

lemma timeoutStep_fire (s : St) (t : Nat)
    (h1 : s.state = Mode.SET_TIMER) (h2 : s.displayTimeoutMillis ≠ 0)
    (h3 : sub32 (t % 2 ^ 32) s.displayTimeoutMillis > 60000) :
    timeoutStep s t =
      { s with displayTimeoutMillis := 0, state := Mode.CLOCK,
               timerSeconds := 0, timerStartSeconds := 0 } := by
  unfold timeoutStep timeoutRef
  rw [if_pos h1, if_neg h2, if_pos h3]

lemma foldl_timeoutStep_hold (mids : List Nat) (s : St)
    (h1 : s.state = Mode.SET_TIMER) (h2 : s.displayTimeoutMillis ≠ 0)
    (h3 : ∀ t ∈ mids, sub32 (t % 2 ^ 32) s.displayTimeoutMillis ≤ 60000) :
    mids.foldl timeoutStep s = s := by
  induction mids with
  | nil => rfl
  | cons t mids ih =>
      rw [List.foldl_cons,
          timeoutStep_hold s t h1 h2 (h3 t (List.mem_cons_self t mids))]
      exact ih fun u hu => h3 u (List.mem_cons_of_mem t hu)

/-- C7.  Enter SET_TIMER with a cleared timeout reference, poll once at
time `t0`, then any number of times within the 60000 ms window, then at a
time `tn` more than 60000 ms after `t0` (in wrapping `millis()`
arithmetic): the mode reverts to CLOCK with both timer values cleared. -/
theorem settimer_inactivity_timeout (s : St) (t0 tn : Nat) (mids : List Nat)
    (h1 : s.state = Mode.SET_TIMER) (h2 : s.displayTimeoutMillis = 0)
    (h3 : t0 % 2 ^ 32 ≠ 0)
    (h4 : ∀ t ∈ mids, sub32 (t % 2 ^ 32) (t0 % 2 ^ 32) ≤ 60000)
    (h5 : 60000 < sub32 (tn % 2 ^ 32) (t0 % 2 ^ 32)) :
    (timeoutStep (mids.foldl timeoutStep (timeoutStep s t0)) tn).state = Mode.CLOCK
    ∧ (timeoutStep (mids.foldl timeoutStep (timeoutStep s t0)) tn).timerSeconds = 0
    ∧ (timeoutStep (mids.foldl timeoutStep (timeoutStep s t0)) tn).timerStartSeconds = 0 := by
  rw [timeoutStep_seed s t0 h1 h2]
  rw [foldl_timeoutStep_hold mids { s with displayTimeoutMillis := t0 % 2 ^ 32 } h1 h3 h4]
  rw [timeoutStep_fire { s with displayTimeoutMillis := t0 % 2 ^ 32 } tn h1 h3 h5]
  exact ⟨rfl, rfl, rfl⟩

/-- Witness for C7: armed at 1000 ms, polled at 30000 ms, expired at
62001 ms. -/
theorem settimer_inactivity_timeout_witness :
    (timeoutStep ([30000].foldl timeoutStep
        (timeoutStep ⟨Mode.SET_TIMER, 0, 0, 42, 42, 0⟩ 1000)) 62001).state = Mode.CLOCK
    ∧ (timeoutStep ([30000].foldl timeoutStep
        (timeoutStep ⟨Mode.SET_TIMER, 0, 0, 42, 42, 0⟩ 1000)) 62001).timerSeconds = 0
    ∧ (timeoutStep ([30000].foldl timeoutStep
        (timeoutStep ⟨Mode.SET_TIMER, 0, 0, 42, 42, 0⟩ 1000)) 62001).timerStartSeconds = 0 :=
  settimer_inactivity_timeout ⟨Mode.SET_TIMER, 0, 0, 42, 42, 0⟩ 1000 62001 [30000]
    rfl rfl (by decide)
    (by intro t ht
        simp at ht
        subst ht
        decide)
    (by decide)

/-! ## C8 -/

/-- When the reading does not decrease (and the gap fits in 16 bits),
the wrapped difference is the true difference. -/
lemma absDiffC_of_le (a : Nat) (last : Int)
    (h1 : last ≤ (a : Int)) (h2 : (a : Int) - last < 65536) :
    absDiffC a last = ((a : Int) - last).toNat := by
  unfold absDiffC
  have he : ((a : Int) - last).emod 65536 = (a : Int) - last :=
    Int.emod_eq_of_lt (by omega) h2
  rw [he]
  by_cases hz : (a : Int) - last = 0
  · rw [hz]
    decide
  · rw [if_pos (by omega)]

/-- A decreased reading wraps: the unsigned 16-bit difference is the
(negative) gap plus 65536. -/
lemma absDiffC_of_lt (a : Nat) (last : Int)
    (h1 : (a : Int) < last) (h2 : last - (a : Int) < 65536) :
    absDiffC a last = ((a : Int) - last + 65536).toNat := by
  unfold absDiffC
  have h4 : ((a : Int) - last + 65536 * 1).emod 65536
      = ((a : Int) - last).emod 65536 :=
    Int.add_mul_emod_self_left ((a : Int) - last) 65536 1
  have h3 : ((a : Int) - last + 65536 * 1).emod 65536
      = (a : Int) - last + 65536 * 1 := Int.emod_eq_of_lt (by omega) (by omega)
  have he : ((a : Int) - last).emod 65536 = (a : Int) - last + 65536 := by
    rw [← h4, h3]; ring
  rw [he, if_pos (by omega)]

/-- Within the ranges that occur (stored reading at most 1300), any
decrease of the reading passes the `> 10` test. -/
lemma absDiffC_gt_of_decrease (a : Nat) (last : Int)
    (h1 : (a : Int) < last) (h2 : last ≤ 1300) :
    10 < absDiffC a last := by
  rw [absDiffC_of_lt a last h1 (by omega)]
  omega

lemma displayRefresh_noChange (d : Disp) (a : Nat)
    (h : absDiffC a d.lastLDRReading ≤ 10) :
    displayRefresh d false a = d := by
  unfold displayRefresh
  rw [if_neg (by simp), if_neg (by omega)]

/-- A reading that repeats the last applied one or rises by at most 10
is filtered. -/
lemma displayRefresh_small_increase (d : Disp) (a : Nat)
    (h1 : d.lastLDRReading ≤ (a : Int)) (h2 : (a : Int) ≤ d.lastLDRReading + 10) :
    displayRefresh d false a = d := by
  apply displayRefresh_noChange
  rw [absDiffC_of_le a d.lastLDRReading h1 (by omega)]
  omega

/-- Counterexample to C8: with 505 the last applied reading (brightness
7), the next reading 500 differs by only 5, yet the code updates — the
unsigned 16-bit difference is 65531 > 10 — and the brightness drops from
7 to 1, so the symmetric ±10 band (and with it the 495/505 oscillation
clause) does not hold of the program. -/
theorem brightness_hysteresis_counterexample :
    absDiffC 500 505 = 65531
    ∧ (displayRefresh ⟨505, 7⟩ false 500).brightness = 1
    ∧ (displayRefresh ⟨505, 7⟩ false 500).lastLDRReading = 500
    ∧ displayRefresh ⟨505, 7⟩ false 500 ≠ ⟨505, 7⟩ := by
  decide

/-- C8 as amended: the alarm forces brightness 7; outside the alarm the
mapping is binary — 7 above 500, else the minimum level 1 — but the
hysteresis is one-sided, because the difference from the last applied
reading is computed in unsigned 16-bit arithmetic before the Arduino
`abs` macro: a reading is applied whenever it is below the last applied
reading (by any amount) or more than 10 above it, and only readings
between the last applied value and 10 above it are filtered. -/
theorem brightness_policy_amended :
    (∀ d : Disp, ∀ a : Nat, (displayRefresh d true a).brightness = 7)
    ∧ (∀ d : Disp, ∀ a : Nat,
        0 ≤ d.lastLDRReading → d.lastLDRReading ≤ 1300 → a ≤ 1023 →
        ((a : Int) < d.lastLDRReading ∨ d.lastLDRReading + 10 < (a : Int)) →
        (displayRefresh d false a).brightness = (if a > 500 then 7 else 1)
        ∧ (displayRefresh d false a).lastLDRReading = (a : Int))
    ∧ (∀ d : Disp, ∀ a : Nat,
        d.lastLDRReading ≤ (a : Int) → (a : Int) ≤ d.lastLDRReading + 10 →
        displayRefresh d false a = d) := by
  refine ⟨?_, ?_, ?_⟩
  · intro d a
    rfl
  · intro d a h0 h1 ha hcase
    have habs : absDiffC a d.lastLDRReading > 10 := by
      rcases hcase with hlt | hgt
      · exact absDiffC_gt_of_decrease a d.lastLDRReading hlt h1
      · rw [absDiffC_of_le a d.lastLDRReading (by omega) (by omega)]
        omega
    unfold displayRefresh
    rw [if_neg (by simp), if_pos habs]
    constructor
    · unfold arduinoMap
      norm_num
    · rfl
  · exact displayRefresh_small_increase

/-- Witness for the amended C8: alarm forces 7; 600 after last applied
1300 is a decrease and applies 7; 400 after last applied 300 rises by
100 and applies 1; 505 after 500 rises by only 5 and is filtered. -/
theorem brightness_policy_amended_witness :
    (displayRefresh ⟨1300, 1⟩ true 600).brightness = 7
    ∧ ((displayRefresh ⟨1300, 1⟩ false 600).brightness = (if 600 > 500 then 7 else 1)
        ∧ (displayRefresh ⟨1300, 1⟩ false 600).lastLDRReading = 600)
    ∧ ((displayRefresh ⟨300, 7⟩ false 400).brightness = (if 400 > 500 then 7 else 1)
        ∧ (displayRefresh ⟨300, 7⟩ false 400).lastLDRReading = 400)
    ∧ displayRefresh ⟨500, 1⟩ false 505 = ⟨500, 1⟩ :=
  ⟨brightness_policy_amended.1 ⟨1300, 1⟩ 600,
   brightness_policy_amended.2.1 ⟨1300, 1⟩ 600 (by decide) (by decide) (by decide)
     (by decide),
   brightness_policy_amended.2.1 ⟨300, 7⟩ 400 (by decide) (by decide) (by decide)
     (by decide),
   brightness_policy_amended.2.2 ⟨500, 1⟩ 505 (by decide) (by decide)⟩

/-! ## C9 -/

/-- Counterexample to C9: in CLOCK, one clockwise detent is handled by
the timer branch — it sets the timer to 10 and switches the mode to
SET_TIMER, so an encoder rotation in CLOCK is not effect-free. -/
theorem clock_encoder_counterexample :
    (handleEncoder ⟨Mode.CLOCK, 12, 34, 0, 0, 0⟩ 4).state = Mode.SET_TIMER
    ∧ (handleEncoder ⟨Mode.CLOCK, 12, 34, 0, 0, 0⟩ 4).timerSeconds = 10
    ∧ ¬ ((handleEncoder ⟨Mode.CLOCK, 12, 34, 0, 0, 0⟩ 4).state = Mode.CLOCK
        ∧ (handleEncoder ⟨Mode.CLOCK, 12, 34, 0, 0, 0⟩ 4).timerSeconds = 0) := by
  decide

/-- C9 as amended: in CLOCK an encoder rotation never touches the clock
digits, but it acts on the timer: a full clockwise detent adds the
snapped step to the timer when the result stays below the cap and
switches the mode to SET_TIMER; a full counterclockwise detent subtracts
the snapped-down step when at least that much remains and leaves the
mode CLOCK; fewer than 4 pulses change nothing. -/
theorem clock_encoder_amended (s : St) (dir : Int) (h : s.state = Mode.CLOCK) :
    (handleEncoder s dir).clockHour = s.clockHour
    ∧ (handleEncoder s dir).clockMinute = s.clockMinute
    ∧ (4 ≤ dir → (handleEncoder s dir).state = Mode.SET_TIMER)
    ∧ (dir ≤ -4 → (handleEncoder s dir).state = Mode.CLOCK)
    ∧ (4 ≤ dir →
        (handleEncoder s dir).timerSeconds =
          (if (s.timerSeconds + upStep Mode.CLOCK s.timerSeconds dir) % 65536 < 6000
           then (s.timerSeconds + upStep Mode.CLOCK s.timerSeconds dir) % 65536
           else s.timerSeconds))
    ∧ (dir ≤ -4 →
        (handleEncoder s dir).timerSeconds =
          (if downStep Mode.CLOCK s.timerSeconds dir ≤ s.timerSeconds
           then s.timerSeconds - downStep Mode.CLOCK s.timerSeconds dir
           else s.timerSeconds))
    ∧ (dir.natAbs < 4 → handleEncoder s dir = s) := by
  refine ⟨?_, ?_, ?_, ?_, ?_, ?_, ?_⟩
  · exact handleEncoder_clockHour_frame s dir (by rw [h]; simp)
  · exact handleEncoder_clockMinute_frame s dir (by rw [h]; simp)
  · intro hd
    rw [handleEncoder_state]
    split_ifs with hc
    · rfl
    · exfalso
      apply hc
      refine ⟨by omega, by rw [h]; simp, by rw [h]; simp, by rw [h]; simp, by omega⟩
  · intro hd
    rw [handleEncoder_state]
    split_ifs with hc
    · omega
    · exact h
  · intro hd
    rw [handleEncoder_split]
    rw [if_pos (by omega), if_neg (by rw [h]; simp), if_neg (by rw [h]; simp)]
    rw [encFinish_timerSeconds, encApply_timerSeconds]
    rw [if_pos (by omega : dir > 0), h]
  · intro hd
    rw [handleEncoder_split]
    rw [if_pos (by omega), if_neg (by rw [h]; simp), if_neg (by rw [h]; simp)]
    rw [encFinish_timerSeconds, encApply_timerSeconds]
    rw [if_neg (by omega : ¬ dir > 0), h]
  · intro hd
    rw [handleEncoder_split]
    rw [if_neg (by omega)]

/-- Witness for the amended C9: one clockwise detent in CLOCK at timer 0
snaps to 10 and enters SET_TIMER; one counterclockwise detent in CLOCK at
timer 30 subtracts the 5 s step and stays in CLOCK. -/
theorem clock_encoder_amended_witness :
    (handleEncoder ⟨Mode.CLOCK, 12, 34, 0, 0, 0⟩ 4).clockHour = 12
    ∧ (handleEncoder ⟨Mode.CLOCK, 12, 34, 0, 0, 0⟩ 4).state = Mode.SET_TIMER
    ∧ (handleEncoder ⟨Mode.CLOCK, 12, 34, 0, 0, 0⟩ 4).timerSeconds = 10
    ∧ (handleEncoder ⟨Mode.CLOCK, 12, 34, 30, 0, 0⟩ (-4)).timerSeconds = 25
    ∧ (handleEncoder ⟨Mode.CLOCK, 12, 34, 30, 0, 0⟩ (-4)).state = Mode.CLOCK :=
  ⟨(clock_encoder_amended ⟨Mode.CLOCK, 12, 34, 0, 0, 0⟩ 4 rfl).1,
   (clock_encoder_amended ⟨Mode.CLOCK, 12, 34, 0, 0, 0⟩ 4 rfl).2.2.1 (by decide),
   ((clock_encoder_amended ⟨Mode.CLOCK, 12, 34, 0, 0, 0⟩ 4 rfl).2.2.2.2.1
      (by decide)).trans (by decide),
   ((clock_encoder_amended ⟨Mode.CLOCK, 12, 34, 30, 0, 0⟩ (-4) rfl).2.2.2.2.2.1
      (by decide)).trans (by decide),
   (clock_encoder_amended ⟨Mode.CLOCK, 12, 34, 30, 0, 0⟩ (-4) rfl).2.2.2.1
      (by decide)⟩

/-! ## C10 -/

lemma downStep_countdown (ts : Nat) (dir : Int) :
    downStep Mode.COUNTDOWN ts dir = encStep ts dir := by
  unfold downStep
  simp

lemma upStep_countdown (ts : Nat) (dir : Int) :
    upStep Mode.COUNTDOWN ts dir = encStep ts dir := by
  unfold upStep
  simp

lemma handleTick_fixed (s : St) (h1 : s.state = Mode.COUNTDOWN)
    (h2 : s.timerSeconds = 0) : handleTick s = s := by
  rcases s with ⟨st, ch, cm, ts, tss, dtm⟩
  simp only at h1 h2
  subst h1
  subst h2
  simp [handleTick]

lemma handleTick_iterate_fixed (s : St) (h1 : s.state = Mode.COUNTDOWN)
    (h2 : s.timerSeconds = 0) (n : Nat) : handleTick^[n] s = s := by
  induction n with
  | zero => rfl
  | succ n ih => rw [Function.iterate_succ_apply, handleTick_fixed s h1 h2, ih]

/-- C10.  In COUNTDOWN, a decrement whose step exactly equals the
remaining seconds zeroes the timer while the mode stays COUNTDOWN; any
number of further per-second ticks changes nothing, so ALARM is never
reached along ticks from that state. -/
theorem countdown_manual_zero (s : St) (dir : Int) (n : Nat)
    (h1 : s.state = Mode.COUNTDOWN) (h2 : dir ≤ -4)
    (h3 : encStep s.timerSeconds dir = s.timerSeconds)
    (h4 : 0 < s.timerSeconds) :
    (handleEncoder s dir).timerSeconds = 0
    ∧ (handleEncoder s dir).state = Mode.COUNTDOWN
    ∧ (handleTick^[n] (handleEncoder s dir)).state = Mode.COUNTDOWN
    ∧ (handleTick^[n] (handleEncoder s dir)).timerSeconds = 0 := by
  have hts : (handleEncoder s dir).timerSeconds = 0 := by
    rw [handleEncoder_split]
    rw [if_pos (by omega), if_neg (by rw [h1]; simp), if_neg (by rw [h1]; simp)]
    rw [encFinish_timerSeconds, encApply_timerSeconds]
    rw [if_neg (by omega)]
    rw [h1, downStep_countdown, h3]
    simp
  have hst : (handleEncoder s dir).state = Mode.COUNTDOWN := by
    rw [handleEncoder_state]
    rw [if_neg (by intro hc; omega)]
    exact h1
  refine ⟨hts, hst, ?_, ?_⟩
  · rw [handleTick_iterate_fixed _ hst hts n, hst]
  · rw [handleTick_iterate_fixed _ hst hts n, hts]

/-- Witness for C10: remaining 5 seconds, one counterclockwise detent
(step 5), then three ticks. -/
theorem countdown_manual_zero_witness :
    (handleEncoder ⟨Mode.COUNTDOWN, 0, 0, 5, 9, 0⟩ (-4)).timerSeconds = 0
    ∧ (handleEncoder ⟨Mode.COUNTDOWN, 0, 0, 5, 9, 0⟩ (-4)).state = Mode.COUNTDOWN
    ∧ (handleTick^[3] (handleEncoder ⟨Mode.COUNTDOWN, 0, 0, 5, 9, 0⟩ (-4))).state
        = Mode.COUNTDOWN
    ∧ (handleTick^[3] (handleEncoder ⟨Mode.COUNTDOWN, 0, 0, 5, 9, 0⟩ (-4))).timerSeconds
        = 0 :=
  countdown_manual_zero ⟨Mode.COUNTDOWN, 0, 0, 5, 9, 0⟩ (-4) 3 rfl (by decide)
    (by decide) (by decide)

/-! ## C4 -/

lemma upStep_not_countdown (mode : Mode) (ts : Nat) (dir : Int)
    (h : mode ≠ Mode.COUNTDOWN) :
    upStep mode ts dir = encStep ts dir - ts % encStep ts dir := by
  unfold upStep
  rw [if_pos h]

/-- Counterexample to C4: in COUNTDOWN at 358 s, one clockwise detent
(`dir = 4`) gets its step from `timerSeconds + dir = 362 > 360`, hence
60 s, giving 418 s — not the 30 s step (388 s) that the table evaluated
at the current value 358 would give. -/
theorem step_table_counterexample :
    (handleEncoder ⟨Mode.COUNTDOWN, 0, 0, 358, 0, 0⟩ 4).timerSeconds = 418
    ∧ claimedStep 358 = 30
    ∧ (handleEncoder ⟨Mode.COUNTDOWN, 0, 0, 358, 0, 0⟩ 4).timerSeconds
        ≠ 358 + claimedStep 358 := by
  decide

/-- C4 as amended: the step magnitude is `stepTable` evaluated at the
16-bit sum `timerSeconds + dir` (upper thresholds) and at `timerSeconds`
(zero case) — that is `encStep`; in COUNTDOWN the full step is applied on
increment (when below the cap) and on decrement (when it fits), while in
SET_TIMER an accepted increment is first reduced so the result is an
exact multiple of the step. -/
theorem step_policy_amended (s : St) (dir : Int) (hts : s.timerSeconds ≤ 5999) :
    (s.state = Mode.COUNTDOWN → 4 ≤ dir →
       (s.timerSeconds + encStep s.timerSeconds dir < 6000 →
          (handleEncoder s dir).timerSeconds
            = s.timerSeconds + encStep s.timerSeconds dir)
       ∧ (6000 ≤ s.timerSeconds + encStep s.timerSeconds dir →
          (handleEncoder s dir).timerSeconds = s.timerSeconds))
    ∧ (s.state = Mode.SET_TIMER → 4 ≤ dir →
        s.timerSeconds
            + (encStep s.timerSeconds dir - s.timerSeconds % encStep s.timerSeconds dir)
          < 6000 →
        (handleEncoder s dir).timerSeconds
            = s.timerSeconds
              + (encStep s.timerSeconds dir - s.timerSeconds % encStep s.timerSeconds dir)
        ∧ (handleEncoder s dir).timerSeconds % encStep s.timerSeconds dir = 0)
    ∧ (s.state = Mode.COUNTDOWN → dir ≤ -4 →
        encStep s.timerSeconds dir ≤ s.timerSeconds →
        (handleEncoder s dir).timerSeconds
          = s.timerSeconds - encStep s.timerSeconds dir) := by
  refine ⟨?_, ?_, ?_⟩
  · intro hmode hdir
    have hle := encStep_le s.timerSeconds dir
    have heq : (handleEncoder s dir).timerSeconds =
        if (s.timerSeconds + encStep s.timerSeconds dir) % 65536 < 6000 then
          (s.timerSeconds + encStep s.timerSeconds dir) % 65536
        else s.timerSeconds := by
      rw [handleEncoder_split]
      rw [if_pos (by omega), if_neg (by rw [hmode]; simp),
          if_neg (by rw [hmode]; simp)]
      rw [encFinish_timerSeconds, encApply_timerSeconds]
      rw [if_pos (by omega : dir > 0), hmode, upStep_countdown]
    have hmod : (s.timerSeconds + encStep s.timerSeconds dir) % 65536
        = s.timerSeconds + encStep s.timerSeconds dir := Nat.mod_eq_of_lt (by omega)
    rw [heq, hmod]
    constructor
    · intro hlt
      rw [if_pos hlt]
    · intro hge
      rw [if_neg (by omega)]
  · intro hmode hdir hfit
    have hle := encStep_le s.timerSeconds dir
    have hpos := encStep_pos s.timerSeconds dir
    have heq : (handleEncoder s dir).timerSeconds =
        s.timerSeconds
          + (encStep s.timerSeconds dir - s.timerSeconds % encStep s.timerSeconds dir) := by
      rw [handleEncoder_split]
      rw [if_pos (by omega), if_neg (by rw [hmode]; simp),
          if_neg (by rw [hmode]; simp)]
      rw [encFinish_timerSeconds, encApply_timerSeconds]
      rw [if_pos (by omega : dir > 0),
          upStep_not_countdown s.state s.timerSeconds dir (by rw [hmode]; simp)]
      rw [Nat.mod_eq_of_lt (by omega)]
      rw [if_pos hfit]
    refine ⟨heq, ?_⟩
    rw [heq]
    have hdm := Nat.div_add_mod s.timerSeconds (encStep s.timerSeconds dir)
    have hmul : s.timerSeconds
        + (encStep s.timerSeconds dir - s.timerSeconds % encStep s.timerSeconds dir)
        = encStep s.timerSeconds dir * (s.timerSeconds / encStep s.timerSeconds dir + 1) := by
      rw [Nat.mul_succ]
      have hmlt := Nat.mod_lt s.timerSeconds hpos
      omega
    rw [hmul, Nat.mul_mod_right]
  · intro hmode hdir hfit
    rw [handleEncoder_split]
    rw [if_pos (by omega), if_neg (by rw [hmode]; simp),
        if_neg (by rw [hmode]; simp)]
    rw [encFinish_timerSeconds, encApply_timerSeconds]
    rw [if_neg (by omega : ¬ dir > 0), hmode, downStep_countdown]
    rw [if_pos hfit]

/-- Witness for the amended C4: COUNTDOWN at 358 takes the full 60 s step
(table read at 362); SET_TIMER at 358 snaps up to 360, a multiple of 60;
COUNTDOWN at 5 with a counterclockwise detent takes the full 5 s step. -/
theorem step_policy_amended_witness :
    (handleEncoder ⟨Mode.COUNTDOWN, 0, 0, 358, 0, 0⟩ 4).timerSeconds = 358 + 60
    ∧ (handleEncoder ⟨Mode.SET_TIMER, 0, 0, 358, 0, 0⟩ 4).timerSeconds = 358 + (60 - 358 % 60)
    ∧ (handleEncoder ⟨Mode.SET_TIMER, 0, 0, 358, 0, 0⟩ 4).timerSeconds % 60 = 0
    ∧ (handleEncoder ⟨Mode.COUNTDOWN, 0, 0, 5, 0, 0⟩ (-4)).timerSeconds = 5 - 5 :=
  ⟨by
      have h := ((step_policy_amended ⟨Mode.COUNTDOWN, 0, 0, 358, 0, 0⟩ 4
        (by decide)).1 rfl (by decide)).1 (by decide)
      simpa using h,
   by
      have h := ((step_policy_amended ⟨Mode.SET_TIMER, 0, 0, 358, 0, 0⟩ 4
        (by decide)).2.1 rfl (by decide) (by decide)).1
      simpa using h,
   by
      have h := ((step_policy_amended ⟨Mode.SET_TIMER, 0, 0, 358, 0, 0⟩ 4
        (by decide)).2.1 rfl (by decide) (by decide)).2
      simpa using h,
   by
      have h := (step_policy_amended ⟨Mode.COUNTDOWN, 0, 0, 5, 0, 0⟩ (-4)
        (by decide)).2.2 rfl (by decide) (by decide)
      simpa using h⟩
